import Mathlib

/-!
Verification of the quiz-session state machine implemented in `src/app.py`.

The Streamlit script keeps all session data in `st.session_state`; we embed
that mutable dictionary as the structure `AppState` and each button handler
as a function from states (plus the event's external inputs) to states.
External collaborators — the Groq LLM, Python's `float` parser, and the
outcome of the database write — are supplied through an `Env` record, so a
theorem quantified over `Env` covers every behaviour of those collaborators.
Python `float` values are modelled as rationals (`ℚ`): every float the
program manipulates is produced by exact parsing, addition and division of
the grader's replies, and the claims under study concern exact values.
User-visible `st.warning` / `st.error` / `st.success` calls that the claims
mention are modelled as `UIMsg` outputs of the step functions.
-/

namespace QuizApp

/-- Embedding of Python's `str.strip()` (used at `app.py` lines 108, 183 and
196): drop whitespace from both ends.  Characters are classified by
`Char.isWhitespace` (space, tab, CR, LF), which covers every whitespace the
claims exercise. -/
def pyStrip (s : String) : String :=
  ⟨((s.data.dropWhile Char.isWhitespace).reverse.dropWhile Char.isWhitespace).reverse⟩

/-- A row of the `questions` table as fetched at line 57: id, prompt and the
four options. -/
structure Question where
  id : Nat
  question : String
  option_a : String
  option_b : String
  option_c : String
  option_d : String
deriving DecidableEq

/-- One element of `st.session_state.answers` (appended at lines 187 and
200): the dictionary with keys `question`, `selected_answer`, `rationale`. -/
structure AnswerEntry where
  question : String
  selected_answer : String
  rationale : String
deriving DecidableEq

/-- The session-state dictionary initialised at lines 117–132 of `app.py`. -/
structure AppState where
  username : String
  selected_quiz : Option Nat
  questions : List Question
  current_question_index : Nat
  answers : List AnswerEntry
  quiz_completed : Bool
  total_score : ℚ
  proceed_to_quiz : Bool
deriving DecidableEq

/-- The user-visible messages the claims refer to: the missing-rationale
warnings (lines 184 and 197), the score-parse error (line 110), and the
logging success / error messages (lines 88 and 90). -/
inductive UIMsg where
  | warnMissingRationale
  | errScoreParse (raw : String)
  | successResultsLogged
  | errResultsLogging
deriving DecidableEq

/-- The external collaborators: `llm.complete` (line 106) as a function from
prompt to response text, Python's `float` constructor (line 108) as a
fallible parse, and the outcome of the `INSERT` in `log_quiz_results`. -/
structure Env where
  llmComplete : String → String
  pyFloat : String → Option ℚ
  persistOk : Bool

/-- The state produced by the initialisation block at lines 117–132. -/
def initState : AppState :=
  { username := ""
    selected_quiz := none
    questions := []
    current_question_index := 0
    answers := []
    quiz_completed := false
    total_score := 0
    proceed_to_quiz := false }

/-- The guard of the question-display block (line 156):
`proceed_to_quiz and questions and not quiz_completed`. -/
def inProgress (s : AppState) : Bool :=
  s.proceed_to_quiz && !s.questions.isEmpty && !s.quiz_completed

/-- The guard of the quiz-selection block (line 141):
`username and not proceed_to_quiz`. -/
def awaitingQuizSelection (s : AppState) : Bool :=
  !s.username.data.isEmpty && !s.proceed_to_quiz

/-- The grading prompt built at lines 99–105. -/
def gradePrompt (question selected_answer rationale : String) : String :=
  "Question: " ++ question ++ "\n" ++
  "Selected Answer: " ++ selected_answer ++ "\n" ++
  "Rationale: " ++ rationale ++ "\n\n" ++
  "Rate the user's answer and rationale on a scale of 0 to 10, where 10 is excellent. " ++
  "Provide only the numeric score (e.g., 8)."

/-- `get_score_from_groq` (lines 97–111): ask the LLM, strip the reply and
parse it as a float; on a `ValueError` report `st.error` and return `0`. -/
def get_score_from_groq (env : Env) (question selected_answer rationale : String) :
    ℚ × List UIMsg :=
  let response := env.llmComplete (gradePrompt question selected_answer rationale)
  match env.pyFloat (pyStrip response) with
  | some v => (v, [])
  | none => (0, [UIMsg.errScoreParse response])

/-- `log_quiz_results` (lines 72–95): the `INSERT` is external; the function
catches every exception, so its only session-visible effect is the success
or error message. -/
def log_quiz_results (persistOk : Bool) : List UIMsg :=
  if persistOk then [UIMsg.successResultsLogged] else [UIMsg.errResultsLogging]

def defaultQuestion : Question := ⟨0, "", "", "", "", ""⟩

/-- The prompt of `questions[current_question_index]` (lines 157–158); in
every reachable in-progress state the index is inside the list. -/
def currentQuestionText (s : AppState) : String :=
  (s.questions.getD s.current_question_index defaultQuestion).question

/-- The dictionary appended to `answers` at lines 187–191 / 200–204. -/
def mkEntry (s : AppState) (selected_answer rationale : String) : AnswerEntry :=
  ⟨currentQuestionText s, selected_answer, rationale⟩

/-- Step 1 (lines 135–138): while the username is empty, it is set from the
text input. -/
def setNameStep (s : AppState) (input : String) : AppState :=
  if s.username.data.isEmpty then { s with username := input } else s

/-- Step 2 (lines 141–153): when the selection block is shown and the quiz
catalog is non-empty, pressing Proceed stores the chosen quiz id, sets
`proceed_to_quiz` and overwrites `questions` with the freshly fetched rows —
unconditionally, even when `fetched` is empty. -/
def proceedStep (s : AppState) (quizzes : List (Nat × String)) (chosen : Nat)
    (fetched : List Question) : AppState :=
  if !s.username.data.isEmpty && !s.proceed_to_quiz && !quizzes.isEmpty then
    { s with selected_quiz := some chosen, proceed_to_quiz := true, questions := fetched }
  else s

/-- The Previous button (lines 176–179): rendered only inside the
question-display block and only when the index is positive. -/
def goBackStep (s : AppState) : AppState × List UIMsg :=
  if inProgress s && decide (0 < s.current_question_index) then
    ({ s with current_question_index := s.current_question_index - 1 }, [])
  else (s, [])

/-- The Next button (lines 181–193): rendered while
`current_question_index < len(questions) - 1`; warns and leaves the state
untouched when the stripped rationale is empty, otherwise appends the answer
and advances the cursor. -/
def goNextStep (s : AppState) (selected_answer rationale : String) :
    AppState × List UIMsg :=
  if inProgress s && decide (s.current_question_index < s.questions.length - 1) then
    if (pyStrip rationale).data.isEmpty then (s, [UIMsg.warnMissingRationale])
    else
      ({ s with
          answers := s.answers ++ [mkEntry s selected_answer rationale]
          current_question_index := s.current_question_index + 1 }, [])
  else (s, [])

/-- The per-entry grading loop of lines 207–214, as a map in `answers`
order. -/
def gradeAll (env : Env) (answers : List AnswerEntry) : List (ℚ × List UIMsg) :=
  answers.map fun a => get_score_from_groq env a.question a.selected_answer a.rationale

/-- The ordered score records produced by the grading loop. -/
def scoresOf (env : Env) (answers : List AnswerEntry) : List ℚ :=
  (gradeAll env answers).map Prod.fst

/-- Failure modes of aggregation: the `EmptyScoreSet` validation error the
specification prescribes, and the `ZeroDivisionError` Python actually raises
when a division's divisor is zero. -/
inductive AggError where
  | emptyScoreSet
  | zeroDivisionError
deriving DecidableEq

/-- The aggregate expression of line 217, `sum(scores) / len(scores)`, on a
non-empty score list. -/
def averageOf (scores : List ℚ) : ℚ :=
  scores.sum / (scores.length : ℚ)

/-- Line 217 with Python's division semantics made explicit: the expression
`sum(scores) / len(scores)` carries no emptiness check, so a zero `len`
would raise an (uncaught) `ZeroDivisionError` from the division itself. -/
def averageOrErr (scores : List ℚ) : Except AggError ℚ :=
  if scores.length = 0 then Except.error AggError.zeroDivisionError
  else Except.ok (averageOf scores)

/-- Modelled from the spec (§4.4 `ResultAggregator.aggregate`, a guard that
is absent from `src/app.py`): fail with `EmptyScoreSet` on zero records,
otherwise return the arithmetic mean. -/
def aggregate_spec (scores : List ℚ) : Except AggError ℚ :=
  if scores.length = 0 then Except.error AggError.emptyScoreSet
  else Except.ok (averageOf scores)

/-- The Submit button (lines 194–229): rendered in the question-display
block when `current_question_index < len(questions) - 1` fails; warns and
leaves the state untouched when the stripped rationale is empty, otherwise
appends the final answer, grades every logged answer in order, stores the
average in `total_score`, logs the results and marks the quiz completed. -/
def submitStep (env : Env) (s : AppState) (selected_answer rationale : String) :
    AppState × List UIMsg :=
  if inProgress s && !(decide (s.current_question_index < s.questions.length - 1)) then
    if (pyStrip rationale).data.isEmpty then (s, [UIMsg.warnMissingRationale])
    else
      let newAnswers := s.answers ++ [mkEntry s selected_answer rationale]
      let graded := gradeAll env newAnswers
      let scores := graded.map Prod.fst
      let scoreMsgs := (graded.map Prod.snd).flatten
      let logMsgs := log_quiz_results env.persistOk
      ({ s with
          answers := newAnswers
          total_score := averageOf scores
          quiz_completed := true },
       scoreMsgs ++ logMsgs)
  else (s, [])

/-- The Retake Quiz button (lines 238–245): rendered only on the end screen;
resets cursor, answers, completion flag and score, and clears
`proceed_to_quiz`, which sends the user back to the quiz-selection block. -/
def retakeStep (s : AppState) : AppState :=
  if s.quiz_completed then
    { s with
        current_question_index := 0
        answers := []
        quiz_completed := false
        total_score := 0
        proceed_to_quiz := false }
  else s

/-- The Exit button (lines 247–249): `st.session_state.clear()` followed by
a rerun re-initialises every key to its default. -/
def resetStep (s : AppState) : AppState :=
  if s.quiz_completed then initState else s

/-- The events the presentation layer can raise, with the data each carries
from outside the session (user input, catalog rows, fetched questions). -/
inductive Event where
  | setName (input : String)
  | selectAndProceed (quizzes : List (Nat × String)) (chosen : Nat) (fetched : List Question)
  | goBack
  | goNext (selected_answer rationale : String)
  | submit (selected_answer rationale : String)
  | retake
  | reset
deriving DecidableEq

/-- One Streamlit rerun handling one event. -/
def step (env : Env) (s : AppState) : Event → AppState
  | Event.setName input => setNameStep s input
  | Event.selectAndProceed quizzes chosen fetched => proceedStep s quizzes chosen fetched
  | Event.goBack => (goBackStep s).1
  | Event.goNext a r => (goNextStep s a r).1
  | Event.submit a r => (submitStep env s a r).1
  | Event.retake => retakeStep s
  | Event.reset => resetStep s

/-- A session: the state reached after a sequence of events. -/
def run (env : Env) : AppState → List Event → AppState
  | s, [] => s
  | s, e :: es => run env (step env s e) es

/-! ### Concrete sessions used as witnesses and counterexamples -/

def q1 : Question := ⟨1, "Q1", "A", "B", "C", "D"⟩

def q2 : Question := ⟨2, "Q2", "A", "B", "C", "D"⟩

/-- An environment whose grader replies are unparsable and whose persistence
succeeds; used where grading output is irrelevant. -/
def trivEnv : Env := ⟨fun _ => "", fun _ => none, true⟩

/-- Test stub for Python's `float` constructor, defined on strings of
decimal digits (all the grader replies the concrete sessions use). -/
def mockPyFloat (s : String) : Option ℚ :=
  if !s.data.isEmpty && s.data.all Char.isDigit then
    some ((s.data.foldl (fun n c => 10 * n + (c.toNat - 48)) 0 : ℕ) : ℚ)
  else none

/-- The grader of the end-to-end scenario: replies "9" to the prompt about
question `Q1` (recognised by the prompt's first twelve characters) and "7"
to every other prompt. -/
def envGK : Env :=
  ⟨fun p => if p.data.take 12 = "Question: Q1".data then "9" else "7", mockPyFloat, true⟩

/-- The end-to-end scenario: Alice takes the two-question quiz, advances
past `Q1` and submits at `Q2`. -/
def traceGK : List Event :=
  [Event.setName "Alice",
   Event.selectAndProceed [(1, "General Knowledge")] 1 [q1, q2],
   Event.goNext "B" "because B is correct",
   Event.submit "C" "C fits"]

/-- The state reached by `traceGK` just before the submit event. -/
def sGK3 : AppState :=
  { username := "Alice"
    selected_quiz := some 1
    questions := [q1, q2]
    current_question_index := 1
    answers := [⟨"Q1", "B", "because B is correct"⟩]
    quiz_completed := false
    total_score := 0
    proceed_to_quiz := true }

/-- A session on the two-question quiz that repeatedly navigates back and
re-answers the first question. -/
def traceDup : List Event :=
  [Event.setName "u",
   Event.selectAndProceed [(1, "T")] 1 [q1, q2],
   Event.goNext "A" "r", Event.goBack,
   Event.goNext "A" "r", Event.goBack,
   Event.goNext "A" "r"]

/-- A reachable in-progress state on the two-question quiz, used to
instantiate hypotheses of the universally quantified theorems. -/
def sIn : AppState :=
  { username := "u"
    selected_quiz := some 1
    questions := [q1, q2]
    current_question_index := 0
    answers := []
    quiz_completed := false
    total_score := 0
    proceed_to_quiz := true }

/-- A completed state of the end-to-end scenario with an explicit aggregate,
used to instantiate the retake theorems. -/
def sDone : AppState :=
  { username := "Alice"
    selected_quiz := some 1
    questions := [q1, q2]
    current_question_index := 1
    answers := [⟨"Q1", "B", "because B is correct"⟩, ⟨"Q2", "C", "C fits"⟩]
    quiz_completed := true
    total_score := 8
    proceed_to_quiz := true }

/-! ### Branch lemmas for the step functions -/

theorem goNext_rejected (s : AppState) (a r : String)
    (h1 : inProgress s = true)
    (h2 : s.current_question_index < s.questions.length - 1)
    (h3 : (pyStrip r).data.isEmpty = true) :
    goNextStep s a r = (s, [UIMsg.warnMissingRationale]) := by
  simp [goNextStep, h1, h2, h3]

theorem goNext_accepted (s : AppState) (a r : String)
    (h1 : inProgress s = true)
    (h2 : s.current_question_index < s.questions.length - 1)
    (h3 : (pyStrip r).data.isEmpty = false) :
    goNextStep s a r =
      ({ s with
          answers := s.answers ++ [mkEntry s a r]
          current_question_index := s.current_question_index + 1 }, []) := by
  simp [goNextStep, h1, h2, h3]

theorem submit_rejected (env : Env) (s : AppState) (a r : String)
    (h1 : inProgress s = true)
    (h2 : ¬ s.current_question_index < s.questions.length - 1)
    (h3 : (pyStrip r).data.isEmpty = true) :
    submitStep env s a r = (s, [UIMsg.warnMissingRationale]) := by
  simp [submitStep, h1, h2, h3]

theorem submit_accepted (env : Env) (s : AppState) (a r : String)
    (h1 : inProgress s = true)
    (h2 : ¬ s.current_question_index < s.questions.length - 1)
    (h3 : (pyStrip r).data.isEmpty = false) :
    submitStep env s a r =
      ({ s with
          answers := s.answers ++ [mkEntry s a r]
          total_score := averageOf (scoresOf env (s.answers ++ [mkEntry s a r]))
          quiz_completed := true },
       ((gradeAll env (s.answers ++ [mkEntry s a r])).map Prod.snd).flatten
         ++ log_quiz_results env.persistOk) := by
  simp [submitStep, h1, h2, h3, scoresOf]

/-! ### Reachability invariants -/

/-- Whenever `proceed_to_quiz` is false in a reachable state, the session is
freshly initialised or freshly retaken: empty answer log, cursor 0, quiz not
completed. -/
def SelInv (s : AppState) : Prop :=
  s.proceed_to_quiz = false →
    s.answers = [] ∧ s.current_question_index = 0 ∧ s.quiz_completed = false

/-- Invariant of sessions that never navigate backwards: before completion
the answer log has exactly one entry per question passed, and the cursor
never leaves the question list. -/
def FwdInv (s : AppState) : Prop :=
  SelInv s
  ∧ (s.quiz_completed = false →
      s.answers.length = s.current_question_index
      ∧ (s.proceed_to_quiz = true → s.current_question_index ≤ s.questions.length - 1))
  ∧ (s.quiz_completed = true → s.answers.length ≤ s.questions.length)

theorem selInv_step (env : Env) (s : AppState) (e : Event) (h : SelInv s) :
    SelInv (step env s e) := by
  cases e <;>
    simp only [step, setNameStep, proceedStep, goBackStep, goNextStep, submitStep,
               retakeStep, resetStep, SelInv, initState, inProgress] at h ⊢ <;>
    (repeat' split) <;> simp_all

theorem selInv_run (env : Env) (trace : List Event) (s : AppState) (h : SelInv s) :
    SelInv (run env s trace) := by
  induction trace generalizing s with
  | nil => exact h
  | cons e es ih => exact ih (step env s e) (selInv_step env s e h)

theorem selInv_init : SelInv initState := by
  simp [SelInv, initState]

theorem fwdInv_setName (s : AppState) (input : String) (h : FwdInv s) :
    FwdInv (setNameStep s input) := by
  obtain ⟨hsel, hopen, hdone⟩ := h
  simp only [setNameStep]
  split
  · exact ⟨fun hp => hsel hp, fun hc => hopen hc, fun hc => hdone hc⟩
  · exact ⟨hsel, hopen, hdone⟩

theorem fwdInv_proceed (s : AppState) (quizzes : List (Nat × String)) (chosen : Nat)
    (fetched : List Question) (h : FwdInv s) : FwdInv (proceedStep s quizzes chosen fetched) := by
  obtain ⟨hsel, hopen, hdone⟩ := h
  simp only [proceedStep]
  split
  · rename_i hguard
    simp only [Bool.and_eq_true, Bool.not_eq_true'] at hguard
    obtain ⟨⟨-, hptq⟩, -⟩ := hguard
    obtain ⟨-, hidx, hcomp⟩ := hsel hptq
    refine ⟨?_, ?_, ?_⟩
    · intro hp; simp at hp
    · intro _; simp [hsel hptq, hidx]
    · intro hc; simp [hcomp] at hc
  · exact ⟨hsel, hopen, hdone⟩

theorem fwdInv_goNext (s : AppState) (a r : String) (h : FwdInv s) :
    FwdInv (goNextStep s a r).1 := by
  obtain ⟨hsel, hopen, hdone⟩ := h
  simp only [goNextStep]
  split
  · rename_i hguard
    simp only [Bool.and_eq_true, decide_eq_true_eq, inProgress, Bool.not_eq_true'] at hguard
    obtain ⟨⟨⟨hptq, hne⟩, hcomp⟩, hidx⟩ := hguard
    split
    · exact ⟨hsel, hopen, hdone⟩
    · obtain ⟨hlen, -⟩ := hopen hcomp
      refine ⟨?_, ?_, ?_⟩
      · intro hp; simp [hptq] at hp
      · intro _
        constructor
        · simp [hlen]
        · intro _; simp; omega
      · intro hc; simp [hcomp] at hc
  · exact ⟨hsel, hopen, hdone⟩

theorem fwdInv_submit (env : Env) (s : AppState) (a r : String) (h : FwdInv s) :
    FwdInv (submitStep env s a r).1 := by
  obtain ⟨hsel, hopen, hdone⟩ := h
  simp only [submitStep]
  split
  · rename_i hguard
    simp only [Bool.and_eq_true, Bool.not_eq_eq_eq_not, Bool.not_true, decide_eq_false_iff_not,
               inProgress, Bool.not_eq_true'] at hguard
    obtain ⟨⟨⟨hptq, hne⟩, hcomp⟩, hidx⟩ := hguard
    split
    · exact ⟨hsel, hopen, hdone⟩
    · obtain ⟨hlen, hbound⟩ := hopen hcomp
      have hqlen : 0 < s.questions.length := by
        cases hq : s.questions with
        | nil => simp [hq] at hne
        | cons x xs => simp [hq]
      refine ⟨?_, ?_, ?_⟩
      · intro hp; simp [hptq] at hp
      · intro hc; simp at hc
      · intro _
        have := hbound hptq
        simp [hlen]
        omega
  · exact ⟨hsel, hopen, hdone⟩

theorem fwdInv_retake (s : AppState) (h : FwdInv s) : FwdInv (retakeStep s) := by
  obtain ⟨hsel, hopen, hdone⟩ := h
  simp only [retakeStep]
  split
  · refine ⟨?_, ?_, ?_⟩ <;> intro _ <;> simp
  · exact ⟨hsel, hopen, hdone⟩

theorem fwdInv_reset (s : AppState) (h : FwdInv s) : FwdInv (resetStep s) := by
  obtain ⟨hsel, hopen, hdone⟩ := h
  simp only [resetStep]
  split
  · refine ⟨?_, ?_, ?_⟩ <;> intro _ <;> simp [initState]
  · exact ⟨hsel, hopen, hdone⟩

theorem fwdInv_step (env : Env) (s : AppState) (e : Event) (hne : e ≠ Event.goBack)
    (h : FwdInv s) : FwdInv (step env s e) := by
  cases e with
  | setName input => exact fwdInv_setName s input h
  | selectAndProceed quizzes chosen fetched => exact fwdInv_proceed s quizzes chosen fetched h
  | goBack => exact absurd rfl hne
  | goNext a r => exact fwdInv_goNext s a r h
  | submit a r => exact fwdInv_submit env s a r h
  | retake => exact fwdInv_retake s h
  | reset => exact fwdInv_reset s h

theorem fwdInv_run (env : Env) (trace : List Event) (s : AppState)
    (hnb : Event.goBack ∉ trace) (h : FwdInv s) : FwdInv (run env s trace) := by
  induction trace generalizing s with
  | nil => exact h
  | cons e es ih =>
      have hne : e ≠ Event.goBack := fun heq => hnb (heq ▸ List.mem_cons_self e es)
      have hnb' : Event.goBack ∉ es := fun hm => hnb (List.mem_cons_of_mem e hm)
      exact ih (step env s e) hnb' (fwdInv_step env s e hne h)

theorem fwdInv_init : FwdInv initState := by
  refine ⟨selInv_init, ?_, ?_⟩ <;> intro _ <;> simp [initState]

/-! ### The claims -/

/-- Claim C1, counterexample: on the two-question quiz, navigating back and
re-answering appends duplicate entries, so a session reaches a point before
scoring (quiz not completed) where the answer log holds three entries
against a two-question snapshot. -/
theorem C1_counterexample :
    (run trivEnv initState traceDup).quiz_completed = false
    ∧ (run trivEnv initState traceDup).questions.length = 2
    ∧ ¬ (run trivEnv initState traceDup).answers.length ≤
        (run trivEnv initState traceDup).questions.length := by
  decide

/-- Claim C1, amended: for every session that never uses goBack, at every
point before scoring (quiz not completed) the answer log never exceeds the
number of questions in the snapshot. -/
theorem C1_amended_log_bound (env : Env) (trace : List Event)
    (hnb : Event.goBack ∉ trace)
    (hc : (run env initState trace).quiz_completed = false) :
    (run env initState trace).answers.length ≤
      (run env initState trace).questions.length := by
  obtain ⟨hsel, hopen, -⟩ := fwdInv_run env trace initState hnb fwdInv_init
  obtain ⟨hlen, hbound⟩ := hopen hc
  by_cases hp : (run env initState trace).proceed_to_quiz = true
  · have := hbound hp
    omega
  · have hp' : (run env initState trace).proceed_to_quiz = false := by
      simpa using hp
    obtain ⟨ha, -, -⟩ := hsel hp'
    simp [ha]

theorem C1_amended_log_bound_witness :
    (run envGK initState (traceGK.take 3)).answers.length ≤
      (run envGK initState (traceGK.take 3)).questions.length :=
  C1_amended_log_bound envGK (traceGK.take 3) (by decide) (by decide)

/-- Claim C2: inside an in-progress session, a goNext or submit call whose
stripped rationale is empty is rejected with the missing-rationale warning
and leaves the state (cursor and answer log included) unchanged; a call with
a non-empty stripped rationale appends exactly one new entry for the current
question, and goNext additionally increments the cursor by one. -/
theorem C2_rationale_guard (env : Env) (s : AppState) (a r : String)
    (h : inProgress s = true) :
    (s.current_question_index < s.questions.length - 1 →
      ((pyStrip r).data.isEmpty = true →
        goNextStep s a r = (s, [UIMsg.warnMissingRationale]))
      ∧ ((pyStrip r).data.isEmpty = false →
        (goNextStep s a r).1.answers = s.answers ++ [mkEntry s a r]
        ∧ (goNextStep s a r).1.current_question_index = s.current_question_index + 1))
    ∧ (¬ s.current_question_index < s.questions.length - 1 →
      ((pyStrip r).data.isEmpty = true →
        submitStep env s a r = (s, [UIMsg.warnMissingRationale]))
      ∧ ((pyStrip r).data.isEmpty = false →
        (submitStep env s a r).1.answers = s.answers ++ [mkEntry s a r])) := by
  constructor
  · intro hidx
    constructor
    · intro hr
      exact goNext_rejected s a r h hidx hr
    · intro hr
      rw [goNext_accepted s a r h hidx hr]
      exact ⟨rfl, rfl⟩
  · intro hidx
    constructor
    · intro hr
      exact submit_rejected env s a r h hidx hr
    · intro hr
      rw [submit_accepted env s a r h hidx hr]

theorem C2_rationale_guard_witness :
    goNextStep sIn "B" " " = (sIn, [UIMsg.warnMissingRationale])
    ∧ (goNextStep sIn "B" "r").1.current_question_index = 1 := by
  constructor
  · exact ((C2_rationale_guard trivEnv sIn "B" " " (by decide)).1 (by decide)).1 (by decide)
  · exact (((C2_rationale_guard trivEnv sIn "B" "r" (by decide)).1 (by decide)).2 (by decide)).2

/-- Claim C3: the aggregate stored by an accepted submit is the arithmetic
mean of the per-answer scores — their sum divided by their count, with no
rounding; in the two-question end-to-end session graded "9" then "7" the
final log holds the two entries in order, the score records are [9, 7] and
the aggregate is 8. -/
theorem C3_aggregate_mean :
    (∀ (env : Env) (s : AppState) (a r : String),
      inProgress s = true →
      ¬ s.current_question_index < s.questions.length - 1 →
      (pyStrip r).data.isEmpty = false →
      (submitStep env s a r).1.total_score =
        (scoresOf env (s.answers ++ [mkEntry s a r])).sum
          / ((s.answers.length + 1 : ℕ) : ℚ))
    ∧ (run envGK initState traceGK).answers.map AnswerEntry.question = ["Q1", "Q2"]
    ∧ scoresOf envGK (run envGK initState traceGK).answers = [9, 7]
    ∧ (run envGK initState traceGK).total_score = 8 := by
  have hpre : (goNextStep (proceedStep (setNameStep initState "Alice")
      [(1, "General Knowledge")] 1 [q1, q2]) "B" "because B is correct").1 = sGK3 := by
    decide
  have hstep : run envGK initState traceGK = (submitStep envGK sGK3 "C" "C fits").1 := by
    simp only [traceGK, run, step]
    rw [hpre]
  refine ⟨?_, by decide, by decide, ?_⟩
  · intro env s a r h1 h2 h3
    rw [submit_accepted env s a r h1 h2 h3]
    simp [averageOf, scoresOf, gradeAll]
  · rw [hstep, submit_accepted envGK sGK3 "C" "C fits" (by decide) (by decide) (by decide)]
    show averageOf (scoresOf envGK (sGK3.answers ++ [mkEntry sGK3 "C" "C fits"])) = 8
    have hscores : scoresOf envGK (sGK3.answers ++ [mkEntry sGK3 "C" "C fits"]) = [9, 7] := by
      decide
    rw [hscores]
    show ((9 : ℚ) + (7 + 0)) / 2 = 8
    norm_num

theorem C3_aggregate_mean_witness :
    (submitStep envGK sGK3 "C" "C fits").1.total_score =
      (scoresOf envGK (sGK3.answers ++ [mkEntry sGK3 "C" "C fits"])).sum
        / ((sGK3.answers.length + 1 : ℕ) : ℚ) :=
  C3_aggregate_mean.1 envGK sGK3 "C" "C fits" (by decide) (by decide) (by decide)

/-- Claim C4: when the stripped grader reply does not parse as a float, the
entry's score is 0 and the failure is reported as a (non-fatal) error
message; a reply that parses to `v` scores exactly `v`, with no clamping to
[0, 10]; and the grading loop produces one score per answer-log entry, so a
failure never aborts the scoring of the remaining entries. -/
theorem C4_parse_failure (env : Env) (question selected_answer rationale : String) :
    (env.pyFloat (pyStrip (env.llmComplete
        (gradePrompt question selected_answer rationale))) = none →
      get_score_from_groq env question selected_answer rationale =
        (0, [UIMsg.errScoreParse (env.llmComplete
              (gradePrompt question selected_answer rationale))]))
    ∧ (∀ v : ℚ,
        env.pyFloat (pyStrip (env.llmComplete
          (gradePrompt question selected_answer rationale))) = some v →
        get_score_from_groq env question selected_answer rationale = (v, []))
    ∧ ∀ answers : List AnswerEntry, (scoresOf env answers).length = answers.length := by
  refine ⟨?_, ?_, ?_⟩
  · intro h
    simp [get_score_from_groq, h]
  · intro v h
    simp [get_score_from_groq, h]
  · intro answers
    simp [scoresOf, gradeAll]

theorem C4_parse_failure_witness :
    get_score_from_groq ⟨fun _ => "excellent answer", fun _ => none, true⟩ "Q" "A" "r" =
      (0, [UIMsg.errScoreParse "excellent answer"])
    ∧ get_score_from_groq ⟨fun _ => "11", mockPyFloat, true⟩ "Q" "A" "r" = (11, []) := by
  constructor
  · exact (C4_parse_failure ⟨fun _ => "excellent answer", fun _ => none, true⟩ "Q" "A" "r").1 rfl
  · exact (C4_parse_failure ⟨fun _ => "11", mockPyFloat, true⟩ "Q" "A" "r").2.1 11 (by decide)

/-- Claim C5, counterexample: retake from a completed session does not
return it to the in-progress phase — it clears `proceed_to_quiz`, which
reactivates the quiz-selection block, and the next proceed overwrites the
snapshot with whatever the fresh fetch returns. -/
theorem C5_counterexample :
    inProgress (retakeStep sDone) = false
    ∧ awaitingQuizSelection (retakeStep sDone) = true
    ∧ (proceedStep (retakeStep sDone) [(1, "T")] 1 [q2]).questions ≠ sDone.questions := by
  refine ⟨by decide, by decide, ?_⟩
  decide

/-- Claim C5, amended: retake from a completed session resets the cursor to
0, clears the answer log and the aggregate score and leaves the stored
snapshot untouched, but it also clears `proceed_to_quiz`: the session
returns to the quiz-selection phase, not in-progress, and the next proceed
installs a freshly fetched question list. -/
theorem C5_amended_retake (s : AppState) (h : s.quiz_completed = true) :
    (retakeStep s).current_question_index = 0
    ∧ (retakeStep s).answers = []
    ∧ (retakeStep s).total_score = 0
    ∧ (retakeStep s).quiz_completed = false
    ∧ (retakeStep s).questions = s.questions
    ∧ (retakeStep s).proceed_to_quiz = false
    ∧ inProgress (retakeStep s) = false
    ∧ (s.username.data.isEmpty = false →
        awaitingQuizSelection (retakeStep s) = true)
    ∧ ∀ (quizzes : List (Nat × String)) (chosen : Nat) (fetched : List Question),
        quizzes ≠ [] → s.username.data.isEmpty = false →
        (proceedStep (retakeStep s) quizzes chosen fetched).questions = fetched := by
  refine ⟨?_, ?_, ?_, ?_, ?_, ?_, ?_, ?_, ?_⟩
  · simp [retakeStep, h]
  · simp [retakeStep, h]
  · simp [retakeStep, h]
  · simp [retakeStep, h]
  · simp [retakeStep, h]
  · simp [retakeStep, h]
  · simp [retakeStep, h, inProgress]
  · intro hu
    simp [retakeStep, h, awaitingQuizSelection, hu]
  · intro quizzes chosen fetched hq hu
    simp [retakeStep, h, proceedStep, hu, hq]

theorem C5_amended_retake_witness :
    (retakeStep sDone).answers = []
    ∧ (retakeStep sDone).questions = sDone.questions
    ∧ (proceedStep (retakeStep sDone) [(1, "T")] 1 [q2]).questions = [q2] := by
  obtain ⟨-, h2, -, -, h5, -, -, -, h9⟩ := C5_amended_retake sDone (by decide)
  exact ⟨h2, h5, h9 [(1, "T")] 1 [q2] (by decide) (by decide)⟩

/-- Claim C6, counterexample: proceeding with an empty fetched snapshot
raises no error and still sets `proceed_to_quiz`, so the quiz-selection
block's guard turns false: the session does not remain in the selection
state (no quiz can be selected afterwards), and it is not in progress
either. -/
theorem C6_counterexample :
    (proceedStep { initState with username := "u" } [(1, "T")] 1 []).proceed_to_quiz = true
    ∧ awaitingQuizSelection
        (proceedStep { initState with username := "u" } [(1, "T")] 1 []) = false
    ∧ inProgress (proceedStep { initState with username := "u" } [(1, "T")] 1 []) = false := by
  decide

/-- Claim C6, amended: in any reachable quiz-selection state, proceeding
with an empty snapshot silently leaves the selection state for a state that
is neither awaiting selection nor in progress; proceeding with a non-empty
snapshot makes the session in-progress with the cursor at 0. -/
theorem C6_amended_proceed (env : Env) (trace : List Event)
    (quizzes : List (Nat × String)) (chosen : Nat)
    (hsel : awaitingQuizSelection (run env initState trace) = true)
    (hq : quizzes ≠ []) :
    (awaitingQuizSelection (proceedStep (run env initState trace) quizzes chosen []) = false
      ∧ inProgress (proceedStep (run env initState trace) quizzes chosen []) = false)
    ∧ ∀ fetched : List Question, fetched ≠ [] →
        inProgress (proceedStep (run env initState trace) quizzes chosen fetched) = true
        ∧ (proceedStep (run env initState trace) quizzes chosen fetched).current_question_index
            = 0 := by
  have hinv := selInv_run env trace initState selInv_init
  simp only [awaitingQuizSelection, Bool.and_eq_true, Bool.not_eq_true'] at hsel
  obtain ⟨hu, hp⟩ := hsel
  obtain ⟨-, hidx, hcomp⟩ := hinv hp
  constructor
  · constructor
    · simp [proceedStep, hu, hp, hq, awaitingQuizSelection]
    · simp [proceedStep, hu, hp, hq, inProgress]
  · intro fetched hf
    constructor
    · simp [proceedStep, hu, hp, hq, inProgress, hf, hcomp]
    · simp [proceedStep, hu, hp, hq, hidx]

theorem C6_amended_proceed_witness :
    inProgress (proceedStep (run trivEnv initState [Event.setName "u"]) [(1, "T")] 1 []) = false
    ∧ inProgress
        (proceedStep (run trivEnv initState [Event.setName "u"]) [(1, "T")] 1 [q1]) = true := by
  obtain ⟨⟨-, h1⟩, h2⟩ :=
    C6_amended_proceed trivEnv [Event.setName "u"] [(1, "T")] 1 (by decide) (by decide)
  exact ⟨h1, (h2 [q1] (by decide)).1⟩

/-- Claim C7, counterexample: the aggregation of line 217 carries no
emptiness guard — applied to zero records it fails with the division's own
ZeroDivisionError, not with the EmptyScoreSet validation error prescribed by
the specification (modelled by `aggregate_spec`). -/
theorem C7_counterexample :
    averageOrErr [] ≠ Except.error AggError.emptyScoreSet
    ∧ averageOrErr [] ≠ aggregate_spec [] := by
  constructor <;> simp [averageOrErr, aggregate_spec]

/-- Claim C7, amended: applied to an empty score list the aggregation does
fail rather than compute a result — but with an unguarded ZeroDivisionError
arising from `sum(scores) / len(scores)` itself, there being no explicit
EmptyScoreSet guard in the code; on every non-empty list it returns the
arithmetic mean. -/
theorem C7_amended_empty_aggregate :
    averageOrErr [] = Except.error AggError.zeroDivisionError
    ∧ ∀ scores : List ℚ, scores ≠ [] →
        averageOrErr scores = Except.ok (averageOf scores) := by
  constructor
  · rfl
  · intro scores hne
    simp [averageOrErr, hne]

theorem C7_amended_empty_aggregate_witness :
    averageOrErr [(9 : ℚ), 7] = Except.ok (averageOf [(9 : ℚ), 7]) :=
  C7_amended_empty_aggregate.2 [(9 : ℚ), 7] (by decide)

/-- Claim C8: inside an in-progress session, goBack decrements the cursor
when it is positive, is a no-op on the whole state when the cursor is 0, and
in every case leaves the answer log exactly as it was. -/
theorem C8_goBack_frame (s : AppState) (h : inProgress s = true) :
    (0 < s.current_question_index →
      (goBackStep s).1.current_question_index = s.current_question_index - 1)
    ∧ (s.current_question_index = 0 → (goBackStep s).1 = s)
    ∧ (goBackStep s).1.answers = s.answers := by
  refine ⟨?_, ?_, ?_⟩
  · intro hpos
    simp [goBackStep, h, hpos]
  · intro h0
    simp [goBackStep, h0]
  · simp only [goBackStep]
    split <;> simp

theorem C8_goBack_frame_witness :
    (goBackStep { sIn with current_question_index := 1 }).1.current_question_index = 0
    ∧ (goBackStep sIn).1 = sIn
    ∧ (goBackStep sIn).1.answers = sIn.answers := by
  refine ⟨?_, ?_, ?_⟩
  · exact (C8_goBack_frame { sIn with current_question_index := 1 } (by decide)).1 (by decide)
  · exact (C8_goBack_frame sIn (by decide)).2.1 (by decide)
  · exact (C8_goBack_frame sIn (by decide)).2.2

/-- Claim C9: the outcome of the persistence write has no effect on the
submitted session's state — with a failing write the session reaches the
completed phase with the same aggregate score as with a successful one, and
the failure is surfaced as an error message. -/
theorem C9_persistence_nonfatal (llm : String → String) (pf : String → Option ℚ)
    (s : AppState) (a r : String)
    (h1 : inProgress s = true)
    (h2 : ¬ s.current_question_index < s.questions.length - 1)
    (h3 : (pyStrip r).data.isEmpty = false) :
    (submitStep ⟨llm, pf, false⟩ s a r).1 = (submitStep ⟨llm, pf, true⟩ s a r).1
    ∧ (submitStep ⟨llm, pf, false⟩ s a r).1.quiz_completed = true
    ∧ (submitStep ⟨llm, pf, false⟩ s a r).1.total_score
        = (submitStep ⟨llm, pf, true⟩ s a r).1.total_score
    ∧ UIMsg.errResultsLogging ∈ (submitStep ⟨llm, pf, false⟩ s a r).2 := by
  rw [submit_accepted ⟨llm, pf, false⟩ s a r h1 h2 h3,
      submit_accepted ⟨llm, pf, true⟩ s a r h1 h2 h3]
  refine ⟨rfl, rfl, rfl, ?_⟩
  simp [log_quiz_results]

theorem C9_persistence_nonfatal_witness :
    (submitStep ⟨envGK.llmComplete, envGK.pyFloat, false⟩ sGK3 "C" "C fits").1
      = (submitStep ⟨envGK.llmComplete, envGK.pyFloat, true⟩ sGK3 "C" "C fits").1
    ∧ UIMsg.errResultsLogging
        ∈ (submitStep ⟨envGK.llmComplete, envGK.pyFloat, false⟩ sGK3 "C" "C fits").2 := by
  obtain ⟨h1, -, -, h4⟩ := C9_persistence_nonfatal envGK.llmComplete envGK.pyFloat sGK3
    "C" "C fits" (by decide) (by decide) (by decide)
  exact ⟨h1, h4⟩

/-- Claim C10: whenever the scoring and aggregation of an accepted submit
run, the graded list contains the just-appended final answer, so it is
non-empty: the divisor `len(scores)` in the aggregate computation is
non-zero and the unguarded division can never raise ZeroDivisionError. -/
theorem C10_no_div_by_zero (env : Env) (s : AppState) (a r : String)
    (h1 : inProgress s = true)
    (h2 : ¬ s.current_question_index < s.questions.length - 1)
    (h3 : (pyStrip r).data.isEmpty = false) :
    (scoresOf env (s.answers ++ [mkEntry s a r])).length ≠ 0
    ∧ averageOrErr (scoresOf env (s.answers ++ [mkEntry s a r]))
        = Except.ok (averageOf (scoresOf env (s.answers ++ [mkEntry s a r])))
    ∧ (submitStep env s a r).1.total_score
        = averageOf (scoresOf env (s.answers ++ [mkEntry s a r])) := by
  have hlen : (scoresOf env (s.answers ++ [mkEntry s a r])).length
      = s.answers.length + 1 := by
    simp [scoresOf, gradeAll]
  refine ⟨by omega, ?_, ?_⟩
  · simp [averageOrErr, hlen]
  · rw [submit_accepted env s a r h1 h2 h3]

theorem C10_no_div_by_zero_witness :
    (scoresOf envGK (sGK3.answers ++ [mkEntry sGK3 "C" "C fits"])).length ≠ 0
    ∧ (submitStep envGK sGK3 "C" "C fits").1.total_score
        = averageOf (scoresOf envGK (sGK3.answers ++ [mkEntry sGK3 "C" "C fits"])) := by
  obtain ⟨h1, -, h3⟩ :=
    C10_no_div_by_zero envGK sGK3 "C" "C fits" (by decide) (by decide) (by decide)
  exact ⟨h1, h3⟩

end QuizApp
